import Mathlib

/-!
Shallow embedding of the nwc-faucet service (src/src/app.ts together with the
payment-resolving variant of the pay route): wallet provisioning against the
hub, hub transfers, wallet lookup by name, and the LNURL-pay resolver.
Network effects are modelled by passing each operation the outcomes of the
HTTP calls it would make; the hub requests and URLs it issues are recorded as
an explicit trace in the first component of each result.
Numbers are modelled exactly (integers for parsed amounts, rationals for the
divisions the source performs on JSON numbers); the JavaScript NaN value
produced by parseInt on a digit-free string is modelled as the none case of
an optional integer.
-/

deriving instance DecidableEq for Except

/-- A JavaScript number as produced by parseInt: none models NaN. -/
abbrev JsNum := Option Int

/-- Numeric value of a list of decimal digit characters. -/
def digitsVal (cs : List Char) : Nat :=
  cs.foldl (fun a c => a * 10 + (c.toNat - 48)) 0

/-- Model of JavaScript parseInt with decimal radix: skip leading whitespace,
read an optional sign, then the maximal run of leading decimal digits; the
result is NaN (none) when no digit is found. Hexadecimal auto-detection is
not modelled. -/
def parseIntJS (s : String) : JsNum :=
  let cs := s.data.dropWhile Char.isWhitespace
  let signAndRest : Int × List Char :=
    match cs with
    | '-' :: rest => (-1, rest)
    | '+' :: rest => (1, rest)
    | _ => (1, cs)
  let ds := signAndRest.2.takeWhile Char.isDigit
  if ds.isEmpty then none
  else some (signAndRest.1 * (digitsVal ds : Int))

/-- First element of the JavaScript split of a string on the at sign: the
characters before the first at sign. -/
def jsSplitHead (s : String) : String :=
  String.mk (s.data.takeWhile (fun c => c ≠ '@'))

/-- First two elements of the JavaScript split of a string on the at sign:
the part before the first at sign, and, when an at sign occurs, the part
between the first at sign and the second one or the end. -/
def jsSplit2 (s : String) : String × Option String :=
  match s.data.dropWhile (fun c => c ≠ '@') with
  | [] => (String.mk (s.data.takeWhile (fun c => c ≠ '@')), none)
  | _ :: rest =>
    (String.mk (s.data.takeWhile (fun c => c ≠ '@')),
     some (String.mk (rest.takeWhile (fun c => c ≠ '@'))))

/-- Whether an HTTP status is a success status (the fetch ok flag). -/
def is2xx (status : Nat) : Bool := decide (200 ≤ status ∧ status < 300)

/-- An HTTP response as the handlers consume it: status and body text. -/
structure HttpResponse where
  status : Nat
  body : String
  deriving DecidableEq

/-- The ok flag of a response. -/
def HttpResponse.ok (r : HttpResponse) : Bool := is2xx r.status

/-- Split a character list on a separator character. -/
def splitListOn (sep : Char) : List Char → List (List Char)
  | [] => [[]]
  | c :: cs =>
    let r := splitListOn sep cs
    if c = sep then [] :: r
    else
      match r with
      | [] => [[c]]
      | h :: t => (c :: h) :: t

/-- One query pair: key before the first equals sign, value after it. -/
def parseQueryPair (cs : List Char) : String × String :=
  (String.mk (cs.takeWhile (fun c => c ≠ '=')),
   String.mk ((cs.dropWhile (fun c => c ≠ '=')).drop 1))

/-- The search parameters encoded in the body of a query string. -/
def parseQuery (cs : List Char) : List (String × String) :=
  ((splitListOn '&' cs).filter (fun p => !p.isEmpty)).map parseQueryPair

/-- Model of the JavaScript URL object: the part before the query string and
the list of search parameters. -/
structure JsUrl where
  base : String
  query : List (String × String)
  deriving DecidableEq

/-- Parse a URL string into its base and search parameters. -/
def parseUrl (s : String) : JsUrl :=
  { base := String.mk (s.data.takeWhile (fun c => c ≠ '?'))
    query := parseQuery ((s.data.dropWhile (fun c => c ≠ '?')).drop 1) }

/-- Serialize a URL: the base alone when there are no search parameters,
else the base followed by the question mark and the ampersand-joined
parameters. -/
def urlToString (u : JsUrl) : String :=
  match u.query with
  | [] => u.base
  | _ => u.base ++ "?" ++ String.intercalate "&" (u.query.map (fun p => p.1 ++ "=" ++ p.2))

/-- Model of searchParams.append: adds one pair at the end, keeping every
existing pair unchanged. -/
def appendParam (u : JsUrl) (k v : String) : JsUrl :=
  { base := u.base, query := u.query ++ [(k, v)] }

/-- A request this service sends to the hub. -/
inductive HubCall where
  | createAppReq (name : String)
  | transfer (appId : String) (amountSat : JsNum)
  | bindAddress (appId : String) (address : String)
  | listApps
  deriving DecidableEq

/-- The JSON body of a successful create-app response. -/
structure AppRecord where
  pairingUri : String
  id : String
  name : String
  deriving DecidableEq

/-- Outcome of the create-app fetch: a thrown network error, or a response
with a status, its body text, and the parsed JSON record (the record is
consulted only on a success status). -/
inductive CreateAppFetch where
  | networkError (msg : String)
  | response (status : Nat) (text : String) (json : AppRecord)
  deriving DecidableEq

/-- The failure modes of createApp exactly as the source distinguishes
them: a propagated network error; the dedicated error for a 404 status; the
generic creation failure carrying the response text for every other
non-success status; and the missing-pairing-URI error for a success
response whose record has an empty pairing URI. -/
inductive CreateAppError where
  | networkError (msg : String)
  | endpointMissing
  | createFailed (text : String)
  | noPairingUri
  deriving DecidableEq

/-- Wallet name requested at creation: the fixed name stem followed by the
current time in milliseconds truncated to whole seconds. -/
def generatedName (nowMs : Nat) : String := "nwc" ++ toString (nowMs / 1000)

/-- createApp: issues the create request and classifies the outcome as the
source does. Non-success status 404 yields the endpoint-missing error, any
other non-success status the generic creation failure with the response
text, and a success response with an empty pairing URI is invalid. -/
def createAppOp (nowMs : Nat) (outcome : CreateAppFetch) :
    List HubCall × Except CreateAppError AppRecord :=
  ([.createAppReq (generatedName nowMs)],
   match outcome with
   | .networkError m => .error (.networkError m)
   | .response status text json =>
     if ¬(is2xx status = true) then
       if status = 404 then .error .endpointMissing
       else .error (.createFailed text)
     else if json.pairingUri = "" then .error .noPairingUri
     else .ok json)

/-- transferToApp: always issues exactly one transfer request carrying the
given amount unchanged; it succeeds exactly when the hub responds with a
success status. -/
def transferToApp (appId : String) (amountSat : JsNum) (resp : HttpResponse) :
    List HubCall × Except String Unit :=
  ([.transfer appId amountSat],
   if resp.ok then .ok () else .error ("Failed to transfer: " ++ resp.body))

/-- createLightningAddress: issues the address-binding request. -/
def createLightningAddressOp (appId : String) (address : String) (resp : HttpResponse) :
    List HubCall × Except String Unit :=
  ([.bindAddress appId address],
   if resp.ok then .ok ()
   else .error ("Failed to create lightning address: " ++ resp.body))

/-- Outcomes of the hub calls a provisioning request may make, plus the
current time used to generate the wallet name. -/
structure ProvisionEnv where
  nowMs : Nat
  createOutcome : CreateAppFetch
  transferResp : HttpResponse
  bindResp : HttpResponse
  deriving DecidableEq

/-- A failure of the provisioning route, tagged by the step it came from. -/
inductive ProvisionError where
  | createFailed (e : CreateAppError)
  | transferFailed (msg : String)
  | bindFailed (msg : String)
  deriving DecidableEq

/-- The provisioning route handler: create the wallet; when the balance is
defined and strictly positive, transfer it to the new wallet; then bind the
receiving address and return the pairing URI with the lud16 parameter
appended. -/
def provisionHandler (balance : Option JsNum) (env : ProvisionEnv) :
    List HubCall × Except ProvisionError String :=
  let create := createAppOp env.nowMs env.createOutcome
  match create.2 with
  | .error e => (create.1, .error (.createFailed e))
  | .ok newApp =>
    let bindStep := createLightningAddressOp newApp.id newApp.name env.bindResp
    let rest : List HubCall × Except ProvisionError String :=
      match bindStep.2 with
      | .error m => (bindStep.1, .error (.bindFailed m))
      | .ok _ =>
        (bindStep.1, .ok (newApp.pairingUri ++ "&lud16=" ++ newApp.name ++ "@getalby.com"))
    match balance with
    | some (some b) =>
      if 0 < b then
        let t := transferToApp newApp.id (some b) env.transferResp
        match t.2 with
        | .error m => (create.1 ++ t.1, .error (.transferFailed m))
        | .ok _ => (create.1 ++ t.1 ++ rest.1, rest.2)
      else (create.1 ++ rest.1, rest.2)
    | _ => (create.1 ++ rest.1, rest.2)

/-- Balance extraction of the provisioning route: the body balance when it
is a truthy (non-empty) string, else the query balance when truthy, else
undefined; a present value is parsed with parseInt. -/
def balanceOf (bodyBalance queryBalance : Option String) : Option JsNum :=
  match bodyBalance with
  | some s =>
    if s ≠ "" then some (parseIntJS s)
    else
      match queryBalance with
      | some q => if q ≠ "" then some (parseIntJS q) else none
      | none => none
  | none =>
    match queryBalance with
    | some q => if q ≠ "" then some (parseIntJS q) else none
    | none => none

/-- The LNURL-pay discovery document fields the resolver consults. -/
structure LnurlParams where
  tag : String
  minSendable : ℚ
  maxSendable : ℚ
  callback : String
  deriving DecidableEq

/-- Outcomes of the two fetches the resolver may perform: the discovery
fetch status and parsed document, and the callback fetch status and the pr
field of its body (none when the field is absent). -/
structure ResolveEnv where
  discoveryStatus : Nat
  params : LnurlParams
  callbackStatus : Nat
  callbackPr : Option String
  deriving DecidableEq

/-- The failure modes of the resolver, in the order the source checks
them. -/
inductive ResolveError where
  | invalidAddress
  | resolveFailed (status : Nat)
  | tagNotPayRequest
  | amountOutOfRange (minS maxS : ℚ)
  | invoiceFetchFailed (status : Nat)
  | invalidInvoiceResponse
  deriving DecidableEq

/-- The callback fetch step of the resolver: fetch the callback URL and
extract the pr field, which must be a truthy (non-empty) string. -/
def invoiceStep (lnurlUrl : String) (callbackUrl : JsUrl) (env : ResolveEnv) :
    List String × Except ResolveError String :=
  if ¬(is2xx env.callbackStatus = true) then
    ([lnurlUrl, urlToString callbackUrl], .error (.invoiceFetchFailed env.callbackStatus))
  else
    match env.callbackPr with
    | none => ([lnurlUrl, urlToString callbackUrl], .error .invalidInvoiceResponse)
    | some pr =>
      if pr = "" then ([lnurlUrl, urlToString callbackUrl], .error .invalidInvoiceResponse)
      else ([lnurlUrl, urlToString callbackUrl], .ok pr)

/-- The resolver steps after the address has been split into a user part
and a domain: discovery fetch, tag check, bounds check with the
millisatoshi bounds divided by 1000 exactly as the source divides numbers,
then the callback step with the amount in millisatoshis appended to the
callback URL. -/
def resolveWithUserDomain (user domain : String) (amountSat : ℤ) (env : ResolveEnv) :
    List String × Except ResolveError String :=
  let lnurlUrl := "https://" ++ domain ++ "/.well-known/lnurlp/" ++ user
  if ¬(is2xx env.discoveryStatus = true) then
    ([lnurlUrl], .error (.resolveFailed env.discoveryStatus))
  else if ¬(env.params.tag = "payRequest") then
    ([lnurlUrl], .error .tagNotPayRequest)
  else if (amountSat : ℚ) < env.params.minSendable / 1000 ∨
      env.params.maxSendable / 1000 < (amountSat : ℚ) then
    ([lnurlUrl],
     .error (.amountOutOfRange (env.params.minSendable / 1000) (env.params.maxSendable / 1000)))
  else
    invoiceStep lnurlUrl
      (appendParam (parseUrl env.params.callback) "amount" (toString (amountSat * 1000))) env

/-- resolveLightningAddress: split the address on the at sign; both the
user part and the domain must be truthy, else the address is invalid; then
resolve with that user and domain. The first component records the URLs
fetched. -/
def resolveLightningAddress (address : String) (amountSat : ℤ) (env : ResolveEnv) :
    List String × Except ResolveError String :=
  match jsSplit2 address with
  | (_, none) => ([], .error .invalidAddress)
  | (user, some domain) =>
    if user = "" ∨ domain = "" then ([], .error .invalidAddress)
    else resolveWithUserDomain user domain amountSat env

/-- One entry of the list-apps response. -/
structure AppInfo where
  id : String
  name : String
  deriving DecidableEq

/-- Outcomes of the hub calls the top-up route may make. -/
structure PayEnv where
  listAppsStatus : Nat
  apps : List AppInfo
  transferResp : HttpResponse
  deriving DecidableEq

/-- The reply of the top-up route: a 400 rejection, a 500 error from the
catch block, or the success body carrying the amount. -/
inductive PayResult where
  | badRequest (msg : String)
  | serverError (msg : String)
  | success (amount : JsNum)
  deriving DecidableEq

/-- Amount of the pay routes: the amount string when truthy, else the
literal string 1000, parsed with parseInt. -/
def payAmount (amountStr : Option String) : JsNum :=
  parseIntJS
    (match amountStr with
     | none => "1000"
     | some s => if s = "" then "1000" else s)

/-- Core of the top-up route after address validation: list the apps, scan
for the first app whose name equals the extracted name under exact string
equality, and transfer the amount to it. -/
def payHandlerCore (appName : String) (amount : JsNum) (env : PayEnv) :
    List HubCall × PayResult :=
  if ¬(is2xx env.listAppsStatus = true) then
    ([.listApps], .serverError ("Failed to list apps: " ++ toString env.listAppsStatus))
  else
    match env.apps.find? (fun app => app.name == appName) with
    | none =>
      ([.listApps],
       .serverError ("App not found: " ++ appName ++ ". Make sure you created the wallet first."))
    | some targetApp =>
      let t := transferToApp targetApp.id amount env.transferResp
      match t.2 with
      | .ok _ => (.listApps :: t.1, .success amount)
      | .error m => (.listApps :: t.1, .serverError m)

/-- The top-up route handler: require a truthy lightning address, extract
the app name as the text before the first at sign, require it truthy, then
delegate to the core. -/
def payHandler (lightningAddress : Option String) (amountStr : Option String) (env : PayEnv) :
    List HubCall × PayResult :=
  let amount := payAmount amountStr
  match lightningAddress with
  | none => ([], .badRequest "Lightning address is required")
  | some la =>
    if la = "" then ([], .badRequest "Lightning address is required")
    else
      let appName := jsSplitHead la
      if appName = "" then ([], .badRequest "Invalid Lightning Address")
      else payHandlerCore appName amount env

/-- Concrete discovery document with a lower bound that is not a whole
number of satoshis. -/
def envC1 : ResolveEnv :=
  ⟨200, ⟨"payRequest", 1500, 100000, "https://x.test/cb"⟩, 200, some "lnbc1"⟩

/-- Concrete discovery document whose callback already carries a query
parameter. -/
def envC4 : ResolveEnv :=
  ⟨200, ⟨"payRequest", 1000, 100000000, "https://x.test/cb?a=1"⟩, 200, some "lnbc1"⟩

/-- Concrete discovery document with a tag other than payRequest. -/
def envC5 : ResolveEnv :=
  ⟨200, ⟨"withdrawRequest", 1000, 100000000, "https://x.test/cb"⟩, 200, some "lnbc1"⟩

/-- Concrete successful create-app response body. -/
def appRecC : AppRecord :=
  ⟨"nostr+walletconnect://abc?relay=r&secret=s", "app-1", "nwc1700000000"⟩

/-- Concrete provisioning environment in which every hub call succeeds. -/
def provEnvC : ProvisionEnv :=
  ⟨1700000000123, .response 200 "" appRecC, ⟨200, ""⟩, ⟨200, ""⟩⟩

/-- Concrete wallet list containing near matches but no exact match for the
name nwc1. -/
def payEnvC6 : PayEnv :=
  ⟨200, [⟨"id1", "NWC1"⟩, ⟨"id2", "nwc1x"⟩, ⟨"id3", "nwc"⟩], ⟨200, ""⟩⟩

/-- Concrete wallet list containing the wallet named nwc1700000000. -/
def payEnvC9 : PayEnv :=
  ⟨200, [⟨"id1", "nwc1700000000"⟩], ⟨200, ""⟩⟩

/-- Helper: the first component of createAppOp is always the single create
request with the generated name. -/
theorem createAppOp_fst (nowMs : Nat) (outcome : CreateAppFetch) :
    (createAppOp nowMs outcome).1 = [.createAppReq (generatedName nowMs)] := rfl

/-- Helper: find? returns the head of the first segment match. -/
theorem find?_first_exact {α : Type} (p : α → Bool) (pre post : List α) (a : α)
    (hpre : ∀ b ∈ pre, p b = false) (ha : p a = true) :
    (pre ++ a :: post).find? p = some a := by
  induction pre with
  | nil => simpa using List.find?_cons_of_pos post ha
  | cons x xs ih =>
    rw [List.cons_append, List.find?_cons_of_neg _ (by simp [hpre x (List.mem_cons_self x xs)])]
    exact ih fun b hb => hpre b (List.mem_cons_of_mem x hb)

/-- Helper: takeWhile is the identity on a list all of whose elements
satisfy the predicate. -/
theorem takeWhile_all {α : Type} (p : α → Bool) (l : List α) (h : ∀ c ∈ l, p c = true) :
    l.takeWhile p = l := by
  induction l with
  | nil => rfl
  | cons x xs ih =>
    rw [List.takeWhile_cons_of_pos (h x (List.mem_cons_self x xs))]
    rw [ih fun c hc => h c (List.mem_cons_of_mem x hc)]

/-- Helper: takeWhile passes over an all-satisfying first segment. -/
theorem takeWhile_append_all {α : Type} (p : α → Bool) (l₁ l₂ : List α)
    (h : ∀ c ∈ l₁, p c = true) :
    (l₁ ++ l₂).takeWhile p = l₁ ++ l₂.takeWhile p := by
  induction l₁ with
  | nil => rfl
  | cons x xs ih =>
    rw [List.cons_append, List.takeWhile_cons_of_pos (h x (List.mem_cons_self x xs))]
    rw [ih fun c hc => h c (List.mem_cons_of_mem x hc)]
    rfl

/-- C3 (amended): transferToApp performs no validation of the amount: for
every wallet id, every amount (positive, zero, negative or NaN) and every
hub response, it issues exactly one transfer request carrying that amount
unchanged, and it succeeds exactly when the hub responds with a success
status. -/
theorem c3_transfer_unvalidated (appId : String) (amountSat : JsNum) (resp : HttpResponse) :
    (transferToApp appId amountSat resp).1 = [.transfer appId amountSat] ∧
      ((transferToApp appId amountSat resp).2 = .ok () ↔ resp.ok = true) := by
  refine ⟨rfl, ?_⟩
  unfold transferToApp
  cases h : resp.ok <;> simp [h]

/-- C3 (counterexample): a transfer of a negative amount and a transfer of
a zero amount are both sent to the hub, refuting the claim that
non-positive amounts are not POSTed. -/
theorem c3_negative_amount_posted :
    (transferToApp "w1" (some (-5)) ⟨200, ""⟩).1 = [.transfer "w1" (some (-5))] ∧
    (transferToApp "w1" (some 0) ⟨200, ""⟩).1 = [.transfer "w1" (some 0)] ∧
    (transferToApp "w1" (some (-5)) ⟨200, ""⟩).1 ≠ [] := by
  decide

/-- C7 (amended): createApp classifies failures as follows: a network error
propagates as the network failure; a 404 response yields the
endpoint-missing error; every other non-success response, 5xx included,
yields the same generic rejection error carrying the response text; a
success response lacking a pairing credential yields the invalid-response
error. -/
theorem c7_createApp_classification :
    (∀ (n : Nat) (m : String),
      (createAppOp n (.networkError m)).2 = .error (.networkError m)) ∧
    (∀ (n : Nat) (text : String) (json : AppRecord),
      (createAppOp n (.response 404 text json)).2 = .error .endpointMissing) ∧
    (∀ (n status : Nat) (text : String) (json : AppRecord),
      is2xx status = false → status ≠ 404 →
        (createAppOp n (.response status text json)).2 = .error (.createFailed text)) ∧
    (∀ (n status : Nat) (text : String) (json : AppRecord),
      is2xx status = true → json.pairingUri = "" →
        (createAppOp n (.response status text json)).2 = .error .noPairingUri) ∧
    (∀ (n status : Nat) (text : String) (json : AppRecord),
      is2xx status = true → json.pairingUri ≠ "" →
        (createAppOp n (.response status text json)).2 = .ok json) := by
  refine ⟨fun n m => rfl, ?_, ?_, ?_, ?_⟩ <;> intros <;> simp_all [createAppOp, is2xx]

/-- C7 (counterexample): a 500 response and a 403 response produce literally
the same error, so 5xx failures are not distinguishable from other non-2xx
rejections, and no dedicated unavailability error exists for 5xx. -/
theorem c7_5xx_not_distinguished :
    (createAppOp 0 (.response 500 "oops" appRecC)).2 = .error (.createFailed "oops") ∧
    (createAppOp 0 (.response 403 "oops" appRecC)).2 = .error (.createFailed "oops") := by
  decide

/-- C7 (witness): the classification applied at concrete statuses. -/
theorem c7_classification_witness :
    (createAppOp 0 (.response 404 "nf" appRecC)).2 = .error .endpointMissing ∧
    (createAppOp 0 (.response 201 "" ⟨"", "i", "n"⟩)).2 = .error .noPairingUri ∧
    (createAppOp 0 (.response 201 "" appRecC)).2 = .ok appRecC := by
  exact ⟨c7_createApp_classification.2.1 0 "nf" appRecC,
    c7_createApp_classification.2.2.2.1 0 201 "" ⟨"", "i", "n"⟩ (by decide) (by decide),
    c7_createApp_classification.2.2.2.2 0 201 "" appRecC (by decide) (by decide)⟩

/-- C2: a provisioning call issues a funding transfer exactly when the
balance is provided and strictly positive; with a positive balance the
successful run issues exactly one transfer of that amount to the new
wallet, after wallet creation and before the address binding; with a zero
(or missing, or NaN) balance no transfer is issued and the address is
still bound. -/
theorem c2_provision_transfer (env : ProvisionEnv) (app : AppRecord)
    (hc : (createAppOp env.nowMs env.createOutcome).2 = .ok app)
    (htr : env.transferResp.ok = true) (hb : env.bindResp.ok = true) :
    (∀ b : ℤ, 0 < b →
      provisionHandler (some (some b)) env =
        ([.createAppReq (generatedName env.nowMs), .transfer app.id (some b),
          .bindAddress app.id app.name],
         .ok (app.pairingUri ++ "&lud16=" ++ app.name ++ "@getalby.com"))) ∧
    (∀ b : ℤ, b ≤ 0 →
      provisionHandler (some (some b)) env =
        ([.createAppReq (generatedName env.nowMs), .bindAddress app.id app.name],
         .ok (app.pairingUri ++ "&lud16=" ++ app.name ++ "@getalby.com"))) ∧
    provisionHandler none env =
      ([.createAppReq (generatedName env.nowMs), .bindAddress app.id app.name],
       .ok (app.pairingUri ++ "&lud16=" ++ app.name ++ "@getalby.com")) ∧
    provisionHandler (some none) env =
      ([.createAppReq (generatedName env.nowMs), .bindAddress app.id app.name],
       .ok (app.pairingUri ++ "&lud16=" ++ app.name ++ "@getalby.com")) := by
  have hbnd : createLightningAddressOp app.id app.name env.bindResp =
      ([.bindAddress app.id app.name], .ok ()) := by
    simp [createLightningAddressOp, hb]
  have htrf : ∀ b : JsNum, transferToApp app.id b env.transferResp =
      ([.transfer app.id b], .ok ()) := by
    intro b; simp [transferToApp, htr]
  refine ⟨?_, ?_, ?_, ?_⟩
  · intro b hbpos
    simp [provisionHandler, hc, hbnd, htrf, hbpos, createAppOp_fst]
  · intro b hble
    have hnot : ¬(0 < b) := not_lt.mpr hble
    simp [provisionHandler, hc, hbnd, hnot, createAppOp_fst]
  · simp [provisionHandler, hc, hbnd, createAppOp_fst]
  · simp [provisionHandler, hc, hbnd, createAppOp_fst]

/-- C2 (witness): the transfer behaviour at a concrete environment for a
positive and for a zero balance. -/
theorem c2_provision_witness :
    provisionHandler (some (some 21)) provEnvC =
      ([.createAppReq "nwc1700000000", .transfer "app-1" (some 21),
        .bindAddress "app-1" "nwc1700000000"],
       .ok "nostr+walletconnect://abc?relay=r&secret=s&lud16=nwc1700000000@getalby.com") ∧
    provisionHandler (some (some 0)) provEnvC =
      ([.createAppReq "nwc1700000000", .bindAddress "app-1" "nwc1700000000"],
       .ok "nostr+walletconnect://abc?relay=r&secret=s&lud16=nwc1700000000@getalby.com") := by
  have h := c2_provision_transfer provEnvC appRecC (by decide) (by decide) (by decide)
  refine ⟨?_, ?_⟩
  · rw [h.1 21 (by decide)]; decide
  · rw [h.2.1 0 (by decide)]; decide

/-- Helper: whenever the provisioning handler succeeds, the returned string
is the pairing URI of the created wallet with the lud16 parameter carrying
the name of that wallet at the fixed operator domain. -/
theorem provision_ok_result (env : ProvisionEnv) (app : AppRecord) (balance : Option JsNum)
    (hc : (createAppOp env.nowMs env.createOutcome).2 = .ok app) (r : String)
    (hr : (provisionHandler balance env).2 = .ok r) :
    r = app.pairingUri ++ "&lud16=" ++ app.name ++ "@getalby.com" := by
  simp only [provisionHandler, hc] at hr
  cases hbv : env.bindResp.ok <;>
    cases htv : env.transferResp.ok <;>
      rcases balance with _ | _ | b <;>
        simp_all [createLightningAddressOp, transferToApp, createAppOp_fst] <;>
          split_ifs at hr <;> simp_all

/-- C8: the requested wallet name is the fixed stem followed by the
creation time truncated to whole seconds, and when the hub echoes that name
back, every successful provisioning call returns exactly the pairing
credential concatenated with a lud16 parameter equal to that generated name
at the fixed operator domain. -/
theorem c8_provision_result (env : ProvisionEnv) (app : AppRecord)
    (hc : (createAppOp env.nowMs env.createOutcome).2 = .ok app)
    (hname : app.name = generatedName env.nowMs) :
    generatedName env.nowMs = "nwc" ++ toString (env.nowMs / 1000) ∧
    ∀ (balance : Option JsNum) (r : String),
      (provisionHandler balance env).2 = .ok r →
        r = app.pairingUri ++ "&lud16=" ++ ("nwc" ++ toString (env.nowMs / 1000)) ++ "@getalby.com" := by
  refine ⟨rfl, ?_⟩
  intro balance r hr
  have h := provision_ok_result env app balance hc r hr
  rw [h, hname]
  rfl

/-- C8 (witness): the returned string at a concrete environment. -/
theorem c8_provision_witness :
    ("nostr+walletconnect://abc?relay=r&secret=s&lud16=nwc1700000000@getalby.com" : String) =
      appRecC.pairingUri ++ "&lud16=" ++ ("nwc" ++ toString (provEnvC.nowMs / 1000)) ++ "@getalby.com" := by
  have h := c8_provision_result provEnvC appRecC (by decide) (by decide)
  exact h.2 (some (some 21)) _ (by decide)

/-- Helper: a well-formed address reduces the resolver to its post-split
steps. -/
theorem resolve_split {address user domain : String} (amountSat : ℤ) (env : ResolveEnv)
    (h : jsSplit2 address = (user, some domain)) (hu : user ≠ "") (hd : domain ≠ "") :
    resolveLightningAddress address amountSat env =
      resolveWithUserDomain user domain amountSat env := by
  simp only [resolveLightningAddress, h]
  rw [if_neg (by simp [hu, hd])]

/-- Helper: the callback step always fetches exactly the discovery URL and
the serialized callback URL. -/
theorem invoiceStep_fst (l : String) (u : JsUrl) (env : ResolveEnv) :
    (invoiceStep l u env).1 = [l, urlToString u] := by
  unfold invoiceStep
  cases h : env.callbackPr <;> dsimp only <;> split_ifs <;> rfl

/-- Helper: the callback step never produces the out-of-range error. -/
theorem invoiceStep_snd_ne_bounds (l : String) (u : JsUrl) (env : ResolveEnv) (mn mx : ℚ) :
    (invoiceStep l u env).2 ≠ .error (.amountOutOfRange mn mx) := by
  unfold invoiceStep
  cases h : env.callbackPr <;> dsimp only <;> split_ifs <;> simp

/-- C1 (amended): for a well-formed address, a reachable recipient and a
payRequest document, the resolver fails with the out-of-range error exactly
when the requested amount in millisatoshis is below minSendable or above
maxSendable; the bounds are divided by 1000 exactly (no truncation), so the
effective lower bound in satoshis is the rounded-up quotient, while the
upper bound coincides with the truncated quotient. -/
theorem c1_bounds_exact_division (address user domain : String) (amountSat : ℤ)
    (env : ResolveEnv)
    (hsplit : jsSplit2 address = (user, some domain)) (hu : user ≠ "") (hd : domain ≠ "")
    (hok : is2xx env.discoveryStatus = true) (htag : env.params.tag = "payRequest") :
    (resolveLightningAddress address amountSat env).2 =
        .error (.amountOutOfRange (env.params.minSendable / 1000) (env.params.maxSendable / 1000))
      ↔ ((amountSat : ℚ) * 1000 < env.params.minSendable ∨
          env.params.maxSendable < (amountSat : ℚ) * 1000) := by
  rw [resolve_split amountSat env hsplit hu hd]
  unfold resolveWithUserDomain
  rw [if_neg (by simp [hok]), if_neg (by simp [htag])]
  by_cases hA : (amountSat : ℚ) < env.params.minSendable / 1000 ∨
      env.params.maxSendable / 1000 < (amountSat : ℚ)
  · rw [if_pos hA]
    constructor
    · intro _
      rcases hA with h | h
      · exact Or.inl ((lt_div_iff₀ (by norm_num)).mp h)
      · exact Or.inr ((div_lt_iff₀ (by norm_num)).mp h)
    · intro _; rfl
  · rw [if_neg hA]
    constructor
    · intro hcontra
      exact absurd hcontra (invoiceStep_snd_ne_bounds _ _ _ _ _)
    · intro hB
      exfalso
      apply hA
      rcases hB with h | h
      · exact Or.inl ((lt_div_iff₀ (by norm_num)).mpr h)
      · exact Or.inr ((div_lt_iff₀ (by norm_num)).mpr h)

/-- C1 (witness): a request of 2000 sats against maxSendable of 100000
millisats is rejected as out of range. -/
theorem c1_bounds_witness :
    (resolveLightningAddress "alice@x.test" 2000 envC1).2 =
      .error (.amountOutOfRange (envC1.params.minSendable / 1000)
        (envC1.params.maxSendable / 1000)) :=
  (c1_bounds_exact_division "alice@x.test" "alice" "x.test" 2000 envC1 (by decide)
    (by decide) (by decide) rfl rfl).mpr (Or.inr (by norm_num [envC1]))

/-- C1 (counterexample): with minSendable of 1500 millisats a request of 1
sat lies inside the truncated interval the claim describes (1500 div 1000
is 1 under integer truncation), yet the resolver rejects it as out of
range, so the bound check does not use integer truncation. -/
theorem c1_truncation_refuted :
    ((1500 : ℤ) / 1000 ≤ 1 ∧ (1 : ℤ) ≤ (100000 : ℤ) / 1000) ∧
      (resolveLightningAddress "alice@x.test" 1 envC1).2 =
        .error (.amountOutOfRange (1500 / 1000 : ℚ) (100000 / 1000 : ℚ)) := by
  constructor
  · decide
  · have hs : jsSplit2 "alice@x.test" = ("alice", some "x.test") := by decide
    simp only [resolveLightningAddress, hs]
    norm_num [resolveWithUserDomain, envC1, is2xx]
    simp +decide

/-- C4: for a well-formed address, a payRequest document and an in-bounds
amount, the resolver fetches exactly the discovery URL and then the
callback URL with one additional amount query parameter equal to the
requested amount times 1000, appended after every pre-existing query
parameter, all of which are preserved unchanged, with the base of the
callback URL unchanged as well. -/
theorem c4_callback_query (address user domain : String) (amountSat : ℤ) (env : ResolveEnv)
    (hsplit : jsSplit2 address = (user, some domain)) (hu : user ≠ "") (hd : domain ≠ "")
    (hok : is2xx env.discoveryStatus = true) (htag : env.params.tag = "payRequest")
    (hlo : env.params.minSendable / 1000 ≤ (amountSat : ℚ))
    (hhi : (amountSat : ℚ) ≤ env.params.maxSendable / 1000) :
    (resolveLightningAddress address amountSat env).1 =
        ["https://" ++ domain ++ "/.well-known/lnurlp/" ++ user,
         urlToString (appendParam (parseUrl env.params.callback) "amount"
           (toString (amountSat * 1000)))] ∧
      (appendParam (parseUrl env.params.callback) "amount" (toString (amountSat * 1000))).query =
        (parseUrl env.params.callback).query ++ [("amount", toString (amountSat * 1000))] ∧
      (appendParam (parseUrl env.params.callback) "amount" (toString (amountSat * 1000))).base =
        (parseUrl env.params.callback).base := by
  refine ⟨?_, rfl, rfl⟩
  rw [resolve_split amountSat env hsplit hu hd]
  unfold resolveWithUserDomain
  rw [if_neg (by simp [hok]), if_neg (by simp [htag]),
    if_neg (by push_neg; exact ⟨hlo, hhi⟩)]
  exact invoiceStep_fst _ _ _

/-- C4 (witness): a callback already carrying a query parameter keeps it
and gains amount equal to 500000 for a request of 500 sats. -/
theorem c4_callback_witness :
    (resolveLightningAddress "alice@x.test" 500 envC4).1 =
        ["https://x.test/.well-known/lnurlp/alice", "https://x.test/cb?a=1&amount=500000"] ∧
      (appendParam (parseUrl "https://x.test/cb?a=1") "amount" "500000").query =
        [("a", "1"), ("amount", "500000")] := by
  have h := c4_callback_query "alice@x.test" "alice" "x.test" 500 envC4 (by decide)
    (by decide) (by decide) rfl rfl (by norm_num [envC4]) (by norm_num [envC4])
  refine ⟨?_, by decide⟩
  rw [h.1]; decide

/-- C5: for a well-formed address and a reachable recipient, a discovery
document whose tag differs from payRequest always fails with the
tag error, whatever the bounds and callback fields hold, and the callback
is never fetched (the trace stops at the discovery URL). -/
theorem c5_tag_rejected (address user domain : String) (amountSat : ℤ) (env : ResolveEnv)
    (hsplit : jsSplit2 address = (user, some domain)) (hu : user ≠ "") (hd : domain ≠ "")
    (hok : is2xx env.discoveryStatus = true)
    (htag : env.params.tag ≠ "payRequest") :
    resolveLightningAddress address amountSat env =
      (["https://" ++ domain ++ "/.well-known/lnurlp/" ++ user], .error .tagNotPayRequest) := by
  rw [resolve_split amountSat env hsplit hu hd]
  unfold resolveWithUserDomain
  rw [if_neg (by simp [hok]), if_pos (by simp [htag])]

/-- C5 (witness): a withdrawRequest document is rejected with the tag
error and only the discovery URL is fetched. -/
theorem c5_tag_witness :
    resolveLightningAddress "alice@x.test" 500 envC5 =
      (["https://x.test/.well-known/lnurlp/alice"], .error .tagNotPayRequest) := by
  have h := c5_tag_rejected "alice@x.test" "alice" "x.test" 500 envC5 (by decide) (by decide)
    (by decide) rfl (by decide)
  rw [h]; decide

/-- Helper: once the address and the extracted name are truthy, the top-up
handler is its core on the extracted name and parsed amount. -/
theorem payHandler_core_reduction (la : String) (amountStr : Option String) (env : PayEnv)
    (hla : la ≠ "") (hname : jsSplitHead la ≠ "") :
    payHandler (some la) amountStr env =
      payHandlerCore (jsSplitHead la) (payAmount amountStr) env := by
  simp only [payHandler]
  rw [if_neg hla, if_neg hname]

/-- C6: the top-up lookup scans the wallet list for the first wallet whose
name equals the address localpart under exact string equality: when no
wallet matches exactly the handler fails with the app-not-found error and
issues no transfer, and when a first exact match exists the handler issues
exactly one transfer to precisely that wallet. -/
theorem c6_lookup_exact_match (la : String) (amountStr : Option String) (env : PayEnv)
    (hla : la ≠ "") (hname : jsSplitHead la ≠ "")
    (hok : is2xx env.listAppsStatus = true) :
    ((∀ app ∈ env.apps, app.name ≠ jsSplitHead la) →
      payHandler (some la) amountStr env =
        ([.listApps],
         .serverError ("App not found: " ++ jsSplitHead la ++
           ". Make sure you created the wallet first."))) ∧
    (∀ (pre post : List AppInfo) (a : AppInfo),
      env.apps = pre ++ a :: post → (∀ b ∈ pre, b.name ≠ jsSplitHead la) →
        a.name = jsSplitHead la →
        (payHandler (some la) amountStr env).1 =
          [.listApps, .transfer a.id (payAmount amountStr)]) := by
  rw [payHandler_core_reduction la amountStr env hla hname]
  constructor
  · intro hnone
    have hfind : env.apps.find? (fun app => app.name == jsSplitHead la) = none :=
      List.find?_eq_none.mpr (fun x hx => by simpa using hnone x hx)
    simp only [payHandlerCore, hok]
    simp [hfind]
  · intro pre post a happ hpre ha
    have hfind : env.apps.find? (fun app => app.name == jsSplitHead la) = some a := by
      rw [happ]
      exact find?_first_exact _ pre post a (fun b hb => by simpa using hpre b hb) (by simpa using ha)
    simp only [payHandlerCore, hok]
    cases htv : env.transferResp.ok <;> simp [hfind, transferToApp, htv]

/-- C6 (witness): a wallet list with a case-different name and a partial
match but no exact match yields the app-not-found error and no transfer. -/
theorem c6_lookup_witness :
    payHandler (some "nwc1@getalby.com") none payEnvC6 =
      ([.listApps],
       .serverError "App not found: nwc1. Make sure you created the wallet first.") := by
  have h := (c6_lookup_exact_match "nwc1@getalby.com" none payEnvC6 (by decide) (by decide)
    (by decide)).1 (by decide)
  rw [h]; decide

/-- C9: when the amount field is absent or the empty string the parsed
amount is 1000; the handler forwards whatever parseInt produced to the
transfer with no further validation, and a non-numeric string parses to
NaN and is forwarded rather than rejected. -/
theorem c9_amount_default (la : String) (env : PayEnv) (a : AppInfo)
    (hla : la ≠ "") (hname : jsSplitHead la ≠ "")
    (hok : is2xx env.listAppsStatus = true)
    (hfind : env.apps.find? (fun app => app.name == jsSplitHead la) = some a) :
    payAmount none = some 1000 ∧
    payAmount (some "") = some 1000 ∧
    (∀ amountStr : Option String,
      (payHandler (some la) amountStr env).1 =
        [.listApps, .transfer a.id (payAmount amountStr)]) ∧
    payAmount (some "abc") = none := by
  refine ⟨by decide, by decide, ?_, by decide⟩
  intro amountStr
  rw [payHandler_core_reduction la amountStr env hla hname]
  simp only [payHandlerCore, hok]
  cases htv : env.transferResp.ok <;> simp [hfind, transferToApp, htv]

/-- C9 (witness): a missing amount transfers 1000 and a non-numeric amount
transfers NaN. -/
theorem c9_amount_witness :
    (payHandler (some "nwc1700000000@x.org") none payEnvC9).1 =
      [.listApps, .transfer "id1" (some 1000)] ∧
    (payHandler (some "nwc1700000000@x.org") (some "abc") payEnvC9).1 =
      [.listApps, .transfer "id1" none] := by
  have h := c9_amount_default "nwc1700000000@x.org" payEnvC9 ⟨"id1", "nwc1700000000"⟩
    (by decide) (by decide) (by decide) (by decide)
  exact ⟨by rw [h.2.2.1 none]; decide, by rw [h.2.2.1 (some "abc")]; decide⟩

/-- Helper: the core of the top-up handler never produces a 400
rejection. -/
theorem payHandlerCore_not_badRequest (appName : String) (amount : JsNum) (env : PayEnv)
    (m : String) :
    (payHandlerCore appName amount env).2 ≠ .badRequest m := by
  unfold payHandlerCore
  split_ifs
  · cases hf : env.apps.find? (fun app => app.name == appName) <;> dsimp only
    · simp
    · cases htv : env.transferResp.ok <;> simp [transferToApp, htv]
  · simp

/-- C10: a non-empty address without an at sign is not rejected as
malformed and its entire text is used as the wallet name; and when an at
sign is present everything after the first at sign is ignored, so two
addresses with the same localpart behave identically whatever their
domains. -/
theorem c10_domain_ignored :
    (∀ s : String, s ≠ "" → (∀ c ∈ s.data, c ≠ '@') →
      jsSplitHead s = s ∧
      ∀ (amountStr : Option String) (env : PayEnv) (m : String),
        (payHandler (some s) amountStr env).2 ≠ .badRequest m) ∧
    (∀ (l d₁ d₂ : String) (amountStr : Option String) (env : PayEnv),
      (∀ c ∈ l.data, c ≠ '@') →
        payHandler (some (l ++ "@" ++ d₁)) amountStr env =
          payHandler (some (l ++ "@" ++ d₂)) amountStr env) := by
  have hdata : ∀ (l d : String), (l ++ "@" ++ d).data = l.data ++ '@' :: d.data := by
    intro l d
    simp [String.data_append]
  have hheadId : ∀ s : String, (∀ c ∈ s.data, c ≠ '@') → jsSplitHead s = s := by
    intro s hs
    unfold jsSplitHead
    rw [takeWhile_all _ _ (fun c hc => by simpa using hs c hc)]
  have hhead : ∀ (l d : String), (∀ c ∈ l.data, c ≠ '@') →
      jsSplitHead (l ++ "@" ++ d) = String.mk l.data := by
    intro l d hl
    unfold jsSplitHead
    rw [hdata, takeWhile_append_all _ _ _ (fun c hc => by simpa using hl c hc)]
    rw [List.takeWhile_cons_of_neg (by simp)]
    simp
  have hne : ∀ (l d : String), (l ++ "@" ++ d) ≠ "" := by
    intro l d h
    have := congrArg String.data h
    rw [hdata] at this
    simp at this
  constructor
  · intro s hs hnoat
    refine ⟨hheadId s hnoat, ?_⟩
    intro amountStr env m
    rw [payHandler_core_reduction s amountStr env hs (by rw [hheadId s hnoat]; exact hs)]
    exact payHandlerCore_not_badRequest _ _ _ _
  · intro l d₁ d₂ amountStr env hl
    simp only [payHandler]
    rw [if_neg (hne l d₁), if_neg (hne l d₂), hhead l d₁ hl, hhead l d₂ hl]

/-- C10 (witness): an address without an at sign keeps its whole text as
the lookup name, and two addresses sharing a localpart produce identical
handler results. -/
theorem c10_domain_witness :
    jsSplitHead "nwc1700000000" = "nwc1700000000" ∧
    payHandler (some "nwc1@getalby.com") none payEnvC6 =
      payHandler (some "nwc1@example.org") none payEnvC6 := by
  refine ⟨(c10_domain_ignored.1 "nwc1700000000" (by decide) (by decide)).1, ?_⟩
  have h := c10_domain_ignored.2 "nwc1" "getalby.com" "example.org" none payEnvC6 (by decide)
  exact h
